import Mathlib

/-!
Formal model of the lead-capture submission workflow implemented in
`src/components/LeadCaptureForm.tsx`.

The component keeps three pieces of state: the form fields (`formData`), the
current validation errors, and the Session Lead Store (the list of session
leads plus the `submitted` flag, held in `useLeadStore`). The submit handler
validates, inserts a row through the Persistence Gateway, invokes the
Notification Gateway, and finally commits to local state. External gateway
responses are modelled as explicit `CallOutcome` inputs, and each run returns
the ordered trace of externally visible events alongside the new state.
-/

structure FormData where
  name : String
  email : String
  industry : String
  deriving DecidableEq, Repr

structure Lead where
  name : String
  email : String
  industry : String
  submitted_at : String
  deriving DecidableEq, Repr

structure ValidationError where
  field : String
  message : String
  deriving DecidableEq, Repr

/-- Outcome of one external gateway call: success, an error value returned in
the response, or the call itself throwing. -/
inductive CallOutcome where
  | ok : CallOutcome
  | err : String → CallOutcome
  | exn : CallOutcome
  deriving DecidableEq, Repr

/-- Externally visible events of one submit run, in order: the insert call to
the Persistence Gateway (with the row payload as an ordered field list), the
invoke call to the Notification Gateway (with its body), and blocking alerts
shown to the user. -/
inductive Event where
  | insertCall : List (String × String) → CallOutcome → Event
  | invokeCall : List (String × String) → CallOutcome → Event
  | alertShown : String → Event
  deriving DecidableEq, Repr

/-- The component's state: form fields, validation errors, and the Session
Lead Store (session leads plus the submitted flag). -/
structure ComponentState where
  formData : FormData
  validationErrors : List ValidationError
  sessionLeads : List Lead
  submitted : Bool
  deriving DecidableEq, Repr

/-- Modelled from the spec: `addLead` of the Session Lead Store
(`src/lib/lead-store.ts`, not included in the repository snapshot) "appends to
an ordered sequence of Leads (insertion order preserved, duplicates by email
allowed)". -/
def addLead (lead : Lead) (s : ComponentState) : ComponentState :=
  { s with sessionLeads := s.sessionLeads ++ [lead] }

/-- Modelled from the spec: `setSubmitted` of the Session Lead Store
(`src/lib/lead-store.ts`, not included in the repository snapshot) "sets a
single shared boolean". -/
def setSubmitted (b : Bool) (s : ComponentState) : ComponentState :=
  { s with submitted := b }

/-- A string that is empty or whitespace-only, i.e. one whose `trim` is
empty. -/
def isBlank (s : String) : Bool :=
  s.toList.all (fun c => c.isWhitespace)

/-- Modelled from the spec: the email-shape test used by `validateLeadForm`
(`src/lib/validation.ts`, not included in the repository snapshot): a
local@domain.tld pattern — non-whitespace, non-@ characters, one @, a domain
with at least one ".". -/
def isEmailShape (s : String) : Bool :=
  let cs := s.toList
  let localPart := cs.takeWhile (fun c => c != '@')
  match cs.dropWhile (fun c => c != '@') with
  | '@' :: domainPart =>
      !localPart.isEmpty && !domainPart.isEmpty &&
      (localPart.all fun c => !c.isWhitespace) &&
      (domainPart.all fun c => !(c.isWhitespace || c == '@')) &&
      domainPart.contains '.'
  | _ => false

/-- Modelled from the spec: `validateLeadForm` (`src/lib/validation.ts`, not
included in the repository snapshot). Name error when empty or
whitespace-only; email error when blank, and a separate error when non-blank
but not email-shaped; industry error when blank; output ordered by field
declaration order name, email, industry. -/
def validateLeadForm (d : FormData) : List ValidationError :=
  (if isBlank d.name then [{ field := "name", message := "Name is required" }] else []) ++
  (if isBlank d.email then [{ field := "email", message := "Email is required" }]
   else if !isEmailShape d.email then
     [{ field := "email", message := "Please enter a valid email address" }]
   else []) ++
  (if isBlank d.industry then
     [{ field := "industry", message := "Please select your industry" }] else [])

/-- The row sent to the Persistence Gateway insert, as the ordered field list
built at lines 32-38 of `LeadCaptureForm.tsx`. -/
def insertPayload (d : FormData) (now : String) : List (String × String) :=
  [("name", d.name), ("email", d.email), ("industry", d.industry), ("submitted_at", now)]

/-- The body sent to the Notification Gateway invoke, as the ordered field
list built at lines 52-56 of `LeadCaptureForm.tsx`. -/
def invokeBody (d : FormData) : List (String × String) :=
  [("name", d.name), ("email", d.email), ("industry", d.industry)]

def emptyForm : FormData :=
  { name := "", email := "", industry := "" }

/-- Shallow embedding of `handleSubmit` (lines 21-82 of
`LeadCaptureForm.tsx`). `dbOutcome` and `emailOutcome` are the external
gateways' responses; `nowDb` and `nowLocal` are the two
`new Date().toISOString()` readings at line 36 and line 73. The handler is a
total function: every outcome, including either call throwing, yields a
state, matching the outer try/catch that keeps exceptions away from the
rendering layer. -/
def handleSubmit (dbOutcome emailOutcome : CallOutcome) (nowDb nowLocal : String)
    (s : ComponentState) : ComponentState × List Event :=
  let errors := validateLeadForm s.formData
  let s1 := { s with validationErrors := errors }
  if errors.length = 0 then
    let payload := insertPayload s.formData nowDb
    match dbOutcome with
    | CallOutcome.exn =>
        (s1, [Event.insertCall payload CallOutcome.exn])
    | CallOutcome.err msg =>
        (s1, [Event.insertCall payload (CallOutcome.err msg),
              Event.alertShown ("Database Error: " ++ msg)])
    | CallOutcome.ok =>
        let lead : Lead :=
          { name := s.formData.name, email := s.formData.email,
            industry := s.formData.industry, submitted_at := nowLocal }
        let s2 := setSubmitted true (addLead lead s1)
        ({ s2 with formData := emptyForm },
         [Event.insertCall payload CallOutcome.ok,
          Event.invokeCall (invokeBody s.formData) emailOutcome])
  else
    (s1, [])

/-- The three form fields `handleInputChange` is called with from the JSX. -/
inductive FieldId where
  | name : FieldId
  | email : FieldId
  | industry : FieldId
  deriving DecidableEq, Repr

def FieldId.key : FieldId → String
  | FieldId.name => "name"
  | FieldId.email => "email"
  | FieldId.industry => "industry"

def FormData.get : FormData → FieldId → String
  | d, FieldId.name => d.name
  | d, FieldId.email => d.email
  | d, FieldId.industry => d.industry

def FormData.set : FormData → FieldId → String → FormData
  | d, FieldId.name, v => { d with name := v }
  | d, FieldId.email, v => { d with email := v }
  | d, FieldId.industry, v => { d with industry := v }

/-- Shallow embedding of `handleInputChange` (lines 84-89 of
`LeadCaptureForm.tsx`): update the field's value, and when that field
currently has a validation error, drop exactly that field's errors. -/
def handleInputChange (f : FieldId) (v : String) (s : ComponentState) : ComponentState :=
  let s1 := { s with formData := s.formData.set f v }
  if s.validationErrors.any (fun e => e.field == f.key) then
    { s1 with validationErrors := s.validationErrors.filter (fun e => !(e.field == f.key)) }
  else
    s1

/-- Shallow embedding of the mount effect (lines 15-17 of
`LeadCaptureForm.tsx`): `useEffect` runs `setSubmitted false` on every
(re)mount. -/
def resetOnMount (s : ComponentState) : ComponentState :=
  setSubmitted false s

def initialState : ComponentState :=
  { formData := emptyForm, validationErrors := [], sessionLeads := [], submitted := false }

/-- States reachable from the initial component state through the component's
operations: mounting, keystrokes, and submit runs with arbitrary gateway
outcomes and clock readings. -/
inductive Reachable : ComponentState → Prop where
  | init : Reachable initialState
  | mount : ∀ s, Reachable s → Reachable (resetOnMount s)
  | input : ∀ f v s, Reachable s → Reachable (handleInputChange f v s)
  | submit : ∀ db em n1 n2 s, Reachable s → Reachable (handleSubmit db em n1 n2 s).1

def Event.isInvoke : Event → Bool
  | Event.invokeCall _ _ => true
  | _ => false

def Event.isInsert : Event → Bool
  | Event.insertCall _ _ => true
  | _ => false

def Event.isOkInsert : Event → Bool
  | Event.insertCall _ CallOutcome.ok => true
  | _ => false

def Event.isAlert : Event → Bool
  | Event.alertShown _ => true
  | _ => false

/-- Every invoke event of the trace occurs strictly after an insert event
whose outcome is success; `seenOk` records whether such an insert has
occurred yet. -/
def noInvokeBeforeOkInsert (seenOk : Bool) : List Event → Bool
  | [] => true
  | e :: rest =>
      if e.isInvoke && !seenOk then false
      else noInvokeBeforeOkInsert (seenOk || e.isOkInsert) rest

/-- A concrete valid pre-submit state used by the concrete-input theorems. -/
def validState : ComponentState :=
  { formData := { name := "Ann", email := "a@b.com", industry := "technology" },
    validationErrors := [], sessionLeads := [], submitted := false }

example : validateLeadForm validState.formData = [] := by decide

example : validateLeadForm emptyForm =
    [{ field := "name", message := "Name is required" },
     { field := "email", message := "Email is required" },
     { field := "industry", message := "Please select your industry" }] := by decide

theorem handleInputChange_formData (f : FieldId) (v : String) (s : ComponentState) :
    (handleInputChange f v s).formData = s.formData.set f v := by
  unfold handleInputChange
  split <;> rfl

theorem handleInputChange_sessionLeads (f : FieldId) (v : String) (s : ComponentState) :
    (handleInputChange f v s).sessionLeads = s.sessionLeads := by
  unfold handleInputChange
  split <;> rfl

theorem handleInputChange_submitted (f : FieldId) (v : String) (s : ComponentState) :
    (handleInputChange f v s).submitted = s.submitted := by
  unfold handleInputChange
  split <;> rfl

theorem handleInputChange_validationErrors (f : FieldId) (v : String) (s : ComponentState) :
    (handleInputChange f v s).validationErrors
      = s.validationErrors.filter (fun e => !(e.field == f.key)) := by
  unfold handleInputChange
  split
  · rfl
  · next h =>
    simp only [List.any_eq_true, not_exists] at h
    push_neg at h
    refine (List.filter_eq_self.mpr ?_).symm
    intro a ha
    simp [h a ha]

theorem handleSubmit_validationErrors (db em : CallOutcome) (nowDb nowLocal : String)
    (s : ComponentState) :
    (handleSubmit db em nowDb nowLocal s).1.validationErrors = validateLeadForm s.formData := by
  cases hval : validateLeadForm s.formData <;> cases db <;>
    simp [handleSubmit, hval, addLead, setSubmitted]

theorem reachable_leads_valid (s : ComponentState) (hr : Reachable s) :
    ∀ l ∈ s.sessionLeads,
      validateLeadForm { name := l.name, email := l.email, industry := l.industry } = [] := by
  induction hr with
  | init => intro l hl; simp [initialState] at hl
  | mount s' _ ih => intro l hl; exact ih l hl
  | input f v s' _ ih =>
      intro l hl
      rw [handleInputChange_sessionLeads] at hl
      exact ih l hl
  | submit db em n1 n2 s' _ ih =>
      intro l hl
      by_cases hlen : (validateLeadForm s'.formData).length = 0
      · cases db with
        | ok =>
            simp [handleSubmit, hlen, addLead, setSubmitted] at hl
            rcases hl with hl | hl
            · exact ih l hl
            · subst hl
              exact List.length_eq_zero.mp hlen
        | err m =>
            simp [handleSubmit, hlen] at hl
            exact ih l hl
        | exn =>
            simp [handleSubmit, hlen] at hl
            exact ih l hl
      · simp [handleSubmit, hlen] at hl
        exact ih l hl

/-- C1: for every submission where validation passes and the Persistence
Gateway insert returns an error, the run surfaces the failure via a blocking
alert and halts: the Notification Gateway is never invoked, the Session Lead
Store is unchanged, the submitted flag remains false, and the form fields
retain their entered values. -/
theorem persistError_halts (msg : String) (em : CallOutcome) (nowDb nowLocal : String)
    (s : ComponentState) (hval : validateLeadForm s.formData = [])
    (hsub : s.submitted = false) :
    (handleSubmit (CallOutcome.err msg) em nowDb nowLocal s).2
      = [Event.insertCall (insertPayload s.formData nowDb) (CallOutcome.err msg),
         Event.alertShown ("Database Error: " ++ msg)] ∧
    ((handleSubmit (CallOutcome.err msg) em nowDb nowLocal s).2.all
      (fun e => !e.isInvoke)) = true ∧
    (handleSubmit (CallOutcome.err msg) em nowDb nowLocal s).1.sessionLeads
      = s.sessionLeads ∧
    (handleSubmit (CallOutcome.err msg) em nowDb nowLocal s).1.submitted = false ∧
    (handleSubmit (CallOutcome.err msg) em nowDb nowLocal s).1.formData = s.formData := by
  refine ⟨?_, ?_, ?_, ?_, ?_⟩ <;> simp [handleSubmit, hval, hsub, Event.isInvoke]

/-- Witness for C1: a concrete valid submission whose insert fails. -/
theorem persistError_halts_witness :
    (handleSubmit (CallOutcome.err "boom") CallOutcome.ok "T1" "T2" validState).2
      = [Event.insertCall (insertPayload validState.formData "T1") (CallOutcome.err "boom"),
         Event.alertShown ("Database Error: " ++ "boom")] ∧
    ((handleSubmit (CallOutcome.err "boom") CallOutcome.ok "T1" "T2" validState).2.all
      (fun e => !e.isInvoke)) = true ∧
    (handleSubmit (CallOutcome.err "boom") CallOutcome.ok "T1" "T2" validState).1.sessionLeads
      = validState.sessionLeads ∧
    (handleSubmit (CallOutcome.err "boom") CallOutcome.ok "T1" "T2" validState).1.submitted
      = false ∧
    (handleSubmit (CallOutcome.err "boom") CallOutcome.ok "T1" "T2" validState).1.formData
      = validState.formData :=
  persistError_halts "boom" CallOutcome.ok "T1" "T2" validState (by decide) rfl

/-- C2: after a successful insert the commit steps run unconditionally,
whatever the Notification Gateway outcome (success, error value, or throw):
the Session Lead Store gains the entry, the submitted flag becomes true, the
trace shows the invoke with its outcome merely recorded, and no alert is
shown — the notification failure is swallowed and the persisted write is not
reverted. -/
theorem notifyFailure_still_commits (em : CallOutcome) (nowDb nowLocal : String)
    (s : ComponentState) (hval : validateLeadForm s.formData = []) :
    (handleSubmit CallOutcome.ok em nowDb nowLocal s).1.sessionLeads
      = s.sessionLeads ++
        [{ name := s.formData.name, email := s.formData.email,
           industry := s.formData.industry, submitted_at := nowLocal }] ∧
    (handleSubmit CallOutcome.ok em nowDb nowLocal s).1.submitted = true ∧
    (handleSubmit CallOutcome.ok em nowDb nowLocal s).2
      = [Event.insertCall (insertPayload s.formData nowDb) CallOutcome.ok,
         Event.invokeCall (invokeBody s.formData) em] ∧
    ((handleSubmit CallOutcome.ok em nowDb nowLocal s).2.all (fun e => !e.isAlert)) = true := by
  refine ⟨?_, ?_, ?_, ?_⟩ <;>
    simp [handleSubmit, hval, addLead, setSubmitted, Event.isAlert]

/-- Witness for C2: a concrete run whose notification call reports an error. -/
theorem notifyFailure_still_commits_witness :
    (handleSubmit CallOutcome.ok (CallOutcome.err "smtp down") "T1" "T2" validState).1.sessionLeads
      = validState.sessionLeads ++
        [{ name := validState.formData.name, email := validState.formData.email,
           industry := validState.formData.industry, submitted_at := "T2" }] ∧
    (handleSubmit CallOutcome.ok (CallOutcome.err "smtp down") "T1" "T2" validState).1.submitted
      = true ∧
    (handleSubmit CallOutcome.ok (CallOutcome.err "smtp down") "T1" "T2" validState).2
      = [Event.insertCall (insertPayload validState.formData "T1") CallOutcome.ok,
         Event.invokeCall (invokeBody validState.formData) (CallOutcome.err "smtp down")] ∧
    ((handleSubmit CallOutcome.ok (CallOutcome.err "smtp down") "T1" "T2" validState).2.all
      (fun e => !e.isAlert)) = true :=
  notifyFailure_still_commits (CallOutcome.err "smtp down") "T1" "T2" validState (by decide)

/-- C3: a valid submission with both gateways succeeding performs exactly one
insert carrying exactly the four fields name, email, industry, submitted_at
in that order, then exactly one invoke carrying exactly the three fields
name, email, industry; the Session Lead Store gains exactly one new entry,
the submitted flag becomes true, and the form fields reset to empty
strings. -/
theorem validSubmit_commits (nowDb nowLocal : String) (s : ComponentState)
    (hval : validateLeadForm s.formData = []) :
    (handleSubmit CallOutcome.ok CallOutcome.ok nowDb nowLocal s).2
      = [Event.insertCall
           [("name", s.formData.name), ("email", s.formData.email),
            ("industry", s.formData.industry), ("submitted_at", nowDb)] CallOutcome.ok,
         Event.invokeCall
           [("name", s.formData.name), ("email", s.formData.email),
            ("industry", s.formData.industry)] CallOutcome.ok] ∧
    (handleSubmit CallOutcome.ok CallOutcome.ok nowDb nowLocal s).1.sessionLeads
      = s.sessionLeads ++
        [{ name := s.formData.name, email := s.formData.email,
           industry := s.formData.industry, submitted_at := nowLocal }] ∧
    (handleSubmit CallOutcome.ok CallOutcome.ok nowDb nowLocal s).1.submitted = true ∧
    (handleSubmit CallOutcome.ok CallOutcome.ok nowDb nowLocal s).1.formData
      = { name := "", email := "", industry := "" } := by
  refine ⟨?_, ?_, ?_, ?_⟩ <;>
    simp [handleSubmit, hval, addLead, setSubmitted, insertPayload, invokeBody, emptyForm]

/-- Witness for C3: the concrete valid state submitted successfully. -/
theorem validSubmit_commits_witness :
    (handleSubmit CallOutcome.ok CallOutcome.ok "T1" "T2" validState).2
      = [Event.insertCall
           [("name", validState.formData.name), ("email", validState.formData.email),
            ("industry", validState.formData.industry), ("submitted_at", "T1")] CallOutcome.ok,
         Event.invokeCall
           [("name", validState.formData.name), ("email", validState.formData.email),
            ("industry", validState.formData.industry)] CallOutcome.ok] ∧
    (handleSubmit CallOutcome.ok CallOutcome.ok "T1" "T2" validState).1.sessionLeads
      = validState.sessionLeads ++
        [{ name := validState.formData.name, email := validState.formData.email,
           industry := validState.formData.industry, submitted_at := "T2" }] ∧
    (handleSubmit CallOutcome.ok CallOutcome.ok "T1" "T2" validState).1.submitted = true ∧
    (handleSubmit CallOutcome.ok CallOutcome.ok "T1" "T2" validState).1.formData
      = { name := "", email := "", industry := "" } :=
  validSubmit_commits "T1" "T2" validState (by decide)

/-- C4: the gateways are reached if and only if the validator's error list is
empty; when it is non-empty the errors are stored per-field, no insert or
invoke event occurs, and no state beyond the error list changes. -/
theorem gateways_iff_valid (db em : CallOutcome) (nowDb nowLocal : String)
    (s : ComponentState) :
    ((handleSubmit db em nowDb nowLocal s).2.any (fun e => e.isInsert || e.isInvoke) = true
        ↔ validateLeadForm s.formData = []) ∧
    (validateLeadForm s.formData ≠ [] →
      (handleSubmit db em nowDb nowLocal s).2 = [] ∧
      (handleSubmit db em nowDb nowLocal s).1
        = { s with validationErrors := validateLeadForm s.formData }) := by
  cases hval : validateLeadForm s.formData with
  | nil =>
      cases db <;>
        simp [handleSubmit, hval, Event.isInsert, Event.isInvoke, addLead, setSubmitted]
  | cons e0 es =>
      cases db <;> simp [handleSubmit, hval]

/-- C5: every submit run issues at most one insert (no automatic retry), and
in its event trace an invoke only ever occurs strictly after an insert whose
outcome is success — the calls are sequential, never concurrent, in this
event-ordered model. -/
theorem notify_strictly_after_persist (db em : CallOutcome) (nowDb nowLocal : String)
    (s : ComponentState) :
    (handleSubmit db em nowDb nowLocal s).2.countP Event.isInsert ≤ 1 ∧
    noInvokeBeforeOkInsert false (handleSubmit db em nowDb nowLocal s).2 = true := by
  cases hval : validateLeadForm s.formData <;> cases db <;>
    simp [handleSubmit, hval, noInvokeBeforeOkInsert, Event.isInvoke, Event.isOkInsert,
          Event.isInsert, List.countP_cons, List.countP_nil]

/-- C6 is false as stated: the code reads the clock twice — line 36 for the
persisted row and line 73 for the locally stored lead — so when the two
readings differ, the lead appended to the Session Lead Store differs from
the record accepted by the Persistence Gateway in its submitted_at field. -/
theorem storeLead_submittedAt_differs :
    (handleSubmit CallOutcome.ok CallOutcome.ok "2025-01-01T00:00:00.000Z"
        "2025-01-01T00:00:00.001Z" validState).1.sessionLeads
      = [{ name := "Ann", email := "a@b.com", industry := "technology",
           submitted_at := "2025-01-01T00:00:00.001Z" }] ∧
    (handleSubmit CallOutcome.ok CallOutcome.ok "2025-01-01T00:00:00.000Z"
        "2025-01-01T00:00:00.001Z" validState).2.head?
      = some (Event.insertCall
          [("name", "Ann"), ("email", "a@b.com"), ("industry", "technology"),
           ("submitted_at", "2025-01-01T00:00:00.000Z")] CallOutcome.ok) ∧
    ("2025-01-01T00:00:00.001Z" : String) ≠ "2025-01-01T00:00:00.000Z" := by
  refine ⟨by decide, by decide, by decide⟩

/-- C6 amended: every lead held in the Session Lead Store of a reachable
state has passed validation, and the entry appended by a successful
submission matches the record accepted by the Persistence Gateway
field-for-field in name, email and industry, while its submitted_at is the
commit-time clock reading, which may differ from the persisted one. -/
theorem storeLead_matches_persisted :
    (∀ s, Reachable s → ∀ l ∈ s.sessionLeads,
       validateLeadForm { name := l.name, email := l.email, industry := l.industry } = []) ∧
    (∀ nowDb nowLocal : String, ∀ s : ComponentState, validateLeadForm s.formData = [] →
       (handleSubmit CallOutcome.ok CallOutcome.ok nowDb nowLocal s).1.sessionLeads
         = s.sessionLeads ++
           [{ name := s.formData.name, email := s.formData.email,
              industry := s.formData.industry, submitted_at := nowLocal }] ∧
       (handleSubmit CallOutcome.ok CallOutcome.ok nowDb nowLocal s).2.head?
         = some (Event.insertCall (insertPayload s.formData nowDb) CallOutcome.ok)) := by
  refine ⟨reachable_leads_valid, ?_⟩
  intro nowDb nowLocal s hval
  refine ⟨?_, ?_⟩ <;> simp [handleSubmit, hval, addLead, setSubmitted]

/-- C7: when the insert call itself throws, the exception is caught at the
outermost level and the run ends without commit — no store append, no
submitted-flag change, no field reset, and no invoke; the handler still
returns a state, so nothing propagates to the rendering layer. -/
theorem unexpectedException_no_commit (em : CallOutcome) (nowDb nowLocal : String)
    (s : ComponentState) (hval : validateLeadForm s.formData = []) :
    (handleSubmit CallOutcome.exn em nowDb nowLocal s).1.sessionLeads = s.sessionLeads ∧
    (handleSubmit CallOutcome.exn em nowDb nowLocal s).1.submitted = s.submitted ∧
    (handleSubmit CallOutcome.exn em nowDb nowLocal s).1.formData = s.formData ∧
    ((handleSubmit CallOutcome.exn em nowDb nowLocal s).2.all (fun e => !e.isInvoke)) = true := by
  refine ⟨?_, ?_, ?_, ?_⟩ <;> simp [handleSubmit, hval, Event.isInvoke]

/-- Witness for C7: a concrete valid submission whose insert call throws. -/
theorem unexpectedException_no_commit_witness :
    (handleSubmit CallOutcome.exn CallOutcome.ok "T1" "T2" validState).1.sessionLeads
      = validState.sessionLeads ∧
    (handleSubmit CallOutcome.exn CallOutcome.ok "T1" "T2" validState).1.submitted
      = validState.submitted ∧
    (handleSubmit CallOutcome.exn CallOutcome.ok "T1" "T2" validState).1.formData
      = validState.formData ∧
    ((handleSubmit CallOutcome.exn CallOutcome.ok "T1" "T2" validState).2.all
      (fun e => !e.isInvoke)) = true :=
  unexpectedException_no_commit CallOutcome.ok "T1" "T2" validState (by decide)

/-- C8: the reset-on-mount effect is idempotent: one application forces the
submitted flag to false whatever the state, repeating it any number of times
equals one application, and it never modifies the Session Lead Store. -/
theorem resetOnMount_idempotent (s : ComponentState) (n : Nat) :
    resetOnMount (resetOnMount s) = resetOnMount s ∧
    resetOnMount^[n + 1] s = resetOnMount s ∧
    (resetOnMount s).submitted = false ∧
    (resetOnMount s).sessionLeads = s.sessionLeads := by
  refine ⟨rfl, ?_, rfl, rfl⟩
  induction n with
  | zero => rfl
  | succ k ih =>
      rw [Function.iterate_succ_apply', ih]
      rfl

/-- C9: a keystroke in a field discards exactly that field's validation
errors (keeping every other field's errors and the submission state), leaves
the other fields' values unchanged while recording the keystroke's value, and
the validation errors are fully replaced on every submit's validation
pass. -/
theorem inputChange_frame (f : FieldId) (v : String) (s : ComponentState)
    (db em : CallOutcome) (nowDb nowLocal : String) :
    (handleInputChange f v s).validationErrors
      = s.validationErrors.filter (fun e => !(e.field == f.key)) ∧
    (handleInputChange f v s).formData = s.formData.set f v ∧
    (∀ g : FieldId, g ≠ f → (handleInputChange f v s).formData.get g = s.formData.get g) ∧
    (handleInputChange f v s).sessionLeads = s.sessionLeads ∧
    (handleInputChange f v s).submitted = s.submitted ∧
    (handleSubmit db em nowDb nowLocal s).1.validationErrors = validateLeadForm s.formData := by
  refine ⟨handleInputChange_validationErrors f v s, handleInputChange_formData f v s, ?_,
          handleInputChange_sessionLeads f v s, handleInputChange_submitted f v s,
          handleSubmit_validationErrors db em nowDb nowLocal s⟩
  intro g hg
  rw [handleInputChange_formData]
  cases f <;> cases g <;> simp_all [FormData.set, FormData.get]

/-- C10: in every reachable state, a true submitted flag implies the Session
Lead Store holds at least one lead: the flag is only set true right after a
lead is appended, and the mount-time reset sets it false without touching
the store. -/
theorem submitted_implies_lead (s : ComponentState) (hr : Reachable s)
    (hs : s.submitted = true) : s.sessionLeads ≠ [] := by
  revert hs
  induction hr with
  | init => intro hs; simp [initialState] at hs
  | mount s' _ ih => intro hs; simp [resetOnMount, setSubmitted] at hs
  | input f v s' _ ih =>
      intro hs
      rw [handleInputChange_submitted] at hs
      rw [handleInputChange_sessionLeads]
      exact ih hs
  | submit db em n1 n2 s' _ ih =>
      intro hs
      by_cases hlen : (validateLeadForm s'.formData).length = 0
      · cases db with
        | ok => simp [handleSubmit, hlen, addLead, setSubmitted]
        | err m =>
            simp only [handleSubmit, hlen, if_pos] at hs ⊢
            exact ih hs
        | exn =>
            simp only [handleSubmit, hlen, if_pos] at hs ⊢
            exact ih hs
      · simp [handleSubmit, hlen] at hs ⊢
        exact ih hs

/-- A reachable state produced by typing a valid lead into the empty form and
submitting it with both gateways succeeding. -/
def wSubmittedState : ComponentState :=
  (handleSubmit CallOutcome.ok CallOutcome.ok "T1" "T2"
    (handleInputChange FieldId.industry "technology"
      (handleInputChange FieldId.email "a@b.com"
        (handleInputChange FieldId.name "Ann" initialState)))).1

/-- Witness for C10: the concrete reachable post-submission state has a true
submitted flag and a non-empty store. -/
theorem submitted_implies_lead_witness :
    wSubmittedState.submitted = true ∧ wSubmittedState.sessionLeads ≠ [] := by
  have hr : Reachable wSubmittedState :=
    Reachable.submit CallOutcome.ok CallOutcome.ok "T1" "T2" _
      (Reachable.input FieldId.industry "technology" _
        (Reachable.input FieldId.email "a@b.com" _
          (Reachable.input FieldId.name "Ann" _ Reachable.init)))
  exact ⟨by decide, submitted_implies_lead wSubmittedState hr (by decide)⟩
